import Mathlib

/-!
# Bulk-selection scripts of `saas_hrm_`

A shallow embedding of `static/assets/js/global-checkbox.js` and
`static/assets/js/global_table_actions.js`.

* DOM elements are references (`Ref`); the page state `Page` maps a reference to the
  properties the scripts read or write (`checked`, `value`, `style.display`, `dataset`).
* A handler closure is its captured environment (`Scope`) together with a function of the
  page state; what a handler does to the outside world (dialogs, requests, reload) is the
  list of `Effect`s it returns, in order.
* The user's answer to a dialog and the server's reply are inputs of the functions; a
  reply is the JSON body the callbacks read (`success`, `message`).
* Exceptions are explicit: a function that can throw returns `Except JsError _`, and a
  sequence of statements that can stop half-way returns what it did with the exception.
* Strings are sequences of Unicode scalar values; selectors are resolved by the functions
  of `Document`, which stand for the rendered markup.
-/

set_option autoImplicit false

namespace SaasHrm

/-! ## JavaScript built-ins used by the scripts -/

/-- The exceptions the scripts can raise. -/
inductive JsError
  | typeError
  | uriError
  | syntaxError
deriving DecidableEq, Repr

/-- ECMAScript `WhiteSpace` and `LineTerminator` code points, the ones `trim` removes. -/
def isJsSpace (c : Char) : Bool :=
  let n := c.toNat
  n = 0x09 || n = 0x0A || n = 0x0B || n = 0x0C || n = 0x0D || n = 0x20 || n = 0xA0 ||
  n = 0x1680 || (0x2000 ≤ n && n ≤ 0x200A) || n = 0x2028 || n = 0x2029 || n = 0x202F ||
  n = 0x205F || n = 0x3000 || n = 0xFEFF

/-- `String.prototype.trim` on the characters of a string. -/
def jsTrim (s : List Char) : List Char :=
  ((s.dropWhile isJsSpace).reverse.dropWhile isJsSpace).reverse

/-- `String.prototype.split` with a one-character separator. -/
def jsSplit (sep : Char) : List Char → List (List Char)
  | [] => [[]]
  | c :: cs =>
    if c = sep then [] :: jsSplit sep cs
    else
      match jsSplit sep cs with
      | [] => [[c]]
      | h :: t => (c :: h) :: t

/-- `String.prototype.startsWith`. -/
def jsStartsWith (s : List Char) (p : String) : Bool :=
  p.data.isPrefixOf s

/-- Value of a hexadecimal digit. -/
def hexVal (c : Char) : Option Nat :=
  let n := c.toNat
  if 48 ≤ n ∧ n ≤ 57 then some (n - 48)
  else if 97 ≤ n ∧ n ≤ 102 then some (n - 87)
  else if 65 ≤ n ∧ n ≤ 70 then some (n - 55)
  else none

/-- The units `Decode` (ECMA-262, 19.2.6.6) reads: a plain character or a `%XX` octet. -/
inductive UriToken
  | lit (c : Char)
  | octet (b : Nat)
deriving DecidableEq, Repr

/-- Reads every `%XX` escape as an octet; `none` when a `%` is not followed by two
hexadecimal digits (`Decode` throws URIError there). -/
def uriTokens : List Char → Option (List UriToken)
  | [] => some []
  | c :: rest =>
    if c = '%' then
      match rest with
      | a :: b :: rest2 =>
        match hexVal a, hexVal b with
        | some x, some y => (uriTokens rest2).map (fun ts => UriToken.octet (16 * x + y) :: ts)
        | _, _ => none
      | _ => none
    else (uriTokens rest).map (fun ts => UriToken.lit c :: ts)

/-- A UTF-8 continuation octet `10xxxxxx`. -/
def isCont (b : Nat) : Bool := 0x80 ≤ b && b < 0xC0

/-- A code point that a UTF-8 sequence of the given minimum may encode: not overlong, not a
surrogate, at most U+10FFFF. -/
def validScalar (lo cp : Nat) : Bool :=
  lo ≤ cp && cp ≤ 0x10FFFF && !(0xD800 ≤ cp && cp ≤ 0xDFFF)

/-- Groups the octets into UTF-8 sequences and decodes them; `none` where `Decode` throws
URIError (a continuation or over-long lead octet in lead position, a missing or wrong
continuation, an invalid encoding). -/
def utf8Chars : List UriToken → Option (List Char)
  | [] => some []
  | .lit c :: rest => (utf8Chars rest).map (fun cs => c :: cs)
  | .octet b :: rest =>
    if b < 0x80 then (utf8Chars rest).map (fun cs => Char.ofNat b :: cs)
    else if b < 0xC0 then none
    else if b < 0xE0 then
      match rest with
      | .octet b2 :: rest2 =>
        let cp := (b - 0xC0) * 64 + (b2 - 0x80)
        if isCont b2 && validScalar 0x80 cp then
          (utf8Chars rest2).map (fun cs => Char.ofNat cp :: cs)
        else none
      | _ => none
    else if b < 0xF0 then
      match rest with
      | .octet b2 :: .octet b3 :: rest3 =>
        let cp := (b - 0xE0) * 4096 + (b2 - 0x80) * 64 + (b3 - 0x80)
        if isCont b2 && isCont b3 && validScalar 0x800 cp then
          (utf8Chars rest3).map (fun cs => Char.ofNat cp :: cs)
        else none
      | _ => none
    else if b < 0xF8 then
      match rest with
      | .octet b2 :: .octet b3 :: .octet b4 :: rest4 =>
        let cp := (b - 0xF0) * 262144 + (b2 - 0x80) * 4096 + (b3 - 0x80) * 64 + (b4 - 0x80)
        if isCont b2 && isCont b3 && isCont b4 && validScalar 0x10000 cp then
          (utf8Chars rest4).map (fun cs => Char.ofNat cp :: cs)
        else none
      | _ => none
    else none

/-- `decodeURIComponent`: the decoded text, or URIError on a malformed escape sequence. -/
def decodeURIComponent (s : List Char) : Except JsError String :=
  match (uriTokens s).bind utf8Chars with
  | some cs => .ok (String.mk cs)
  | none => .error .uriError

/-- A JavaScript Number as `parseInt` yields it: `nan`, or the Number nearest to the
integer `z` (the integer itself whenever `|z| ≤ 2^53`; the sign of zero is not kept). -/
inductive JsNumber
  | nan
  | int (z : Int)
deriving DecidableEq, Repr

/-- Value of a digit in the given radix (10 or 16). -/
def digitVal (radix : Nat) (c : Char) : Option Nat :=
  match hexVal c with
  | some d => if d < radix then some d else none
  | none => none

/-- Value of the longest prefix of digits, with the number of digits read. -/
def readDigits (radix : Nat) : Nat → Nat → List Char → Nat × Nat
  | acc, n, [] => (acc, n)
  | acc, n, c :: cs =>
    match digitVal radix c with
    | some d => readDigits radix (acc * radix + d) (n + 1) cs
    | none => (acc, n)

/-- `parseInt(string)` with no radix argument (ECMA-262, 19.2.5): leading white space is
skipped, a sign and a `0x`/`0X` prefix are read, then the longest prefix of digits. -/
def parseInt (s : String) : JsNumber :=
  let s := s.data.dropWhile isJsSpace
  let neg : Bool := match s with
    | c :: _ => c = '-'
    | [] => false
  let s := match s with
    | c :: r => if c = '-' ∨ c = '+' then r else s
    | [] => s
  let hex : Bool := match s with
    | a :: b :: _ => a = '0' ∧ (b = 'x' ∨ b = 'X')
    | _ => false
  let s := if hex then s.drop 2 else s
  let (v, n) := readDigits (if hex then 16 else 10) 0 0 s
  if n = 0 then .nan else .int (if neg then -(v : Int) else (v : Int))

/-- An element of the `ids` array of a request body. -/
inductive JsValue
  | number (n : JsNumber)
  | string (s : String)
deriving DecidableEq, Repr

/-- The operand of `x || d` for an optional string: undefined and the empty string are falsy. -/
def orDefault (x : Option String) (d : String) : String :=
  match x with
  | some s => if s = "" then d else s
  | none => d

/-- Truthiness of an optional string. -/
def truthy (x : Option String) : Bool :=
  match x with
  | some s => s ≠ ""
  | none => false

/-! ## Page state -/

/-- A reference to a DOM element. -/
abbrev Ref := Nat

/-- The state the scripts read and write: per element `checked`, `value`, `style.display`
and the `data-*` attributes; `document.cookie`; whether `Swal` is defined. -/
structure Page where
  checked : Ref → Bool
  value : Ref → String
  display : Ref → String
  deleteUrl : Ref → Option String
  restoreUrl : Ref → Option String
  dataType : Ref → Option String
  cookie : String
  swalDefined : Bool

/-- Assignment `el.checked = b`. -/
def Page.setChecked (p : Page) (el : Ref) (b : Bool) : Page :=
  { p with checked := Function.update p.checked el b }

/-- Assignment `el.style.display = v`. -/
def Page.setDisplay (p : Page) (el : Ref) (v : String) : Page :=
  { p with display := Function.update p.display el v }

/-- Selector resolution on the rendered markup; the root `none` is `document`.
`validSelector` tells whether a string parses as a CSS selector list: `querySelector` and
`querySelectorAll` raise SyntaxError on a string that does not, and the other fields give
what they return on one that does. -/
structure Document where
  validSelector : String → Bool
  querySelector : Option Ref → String → Option Ref
  querySelectorAll : Option Ref → String → List Ref
  closest : Ref → String → Option Ref
  getElementById : String → Option Ref

/-- The call `root.querySelector(sel)` with a selector that is not a literal of the script. -/
def Document.query (doc : Document) (root : Option Ref) (sel : String) :
    Except JsError (Option Ref) :=
  if doc.validSelector sel then .ok (doc.querySelector root sel) else .error .syntaxError

/-- The call `root.querySelectorAll(sel)` with a selector that is not a literal of the
script. -/
def Document.queryAll (doc : Document) (root : Option Ref) (sel : String) :
    Except JsError (List Ref) :=
  if doc.validSelector sel then .ok (doc.querySelectorAll root sel) else .error .syntaxError

/-- The elements a handler closure captured when it was registered. -/
structure Scope where
  markAll : Ref
  checkboxes : List Ref
  restoreBtn : Option Ref
  deleteBtn : Option Ref
deriving DecidableEq, Repr

/-! ## Effects -/

/-- Options passed to `Swal.fire`. -/
structure SwalOptions where
  title : String
  html : Option String := none
  text : Option String := none
  icon : String
  showCancelButton : Bool := false
  showDenyButton : Bool := false
  confirmButtonColor : Option String := none
  cancelButtonColor : Option String := none
  confirmButtonText : Option String := none
  denyButtonText : Option String := none
  cancelButtonText : Option String := none
deriving DecidableEq, Repr

/-- The object given to `JSON.stringify` as request body; `type` is absent for restore. -/
structure Body where
  ids : List JsValue
  type : Option String
deriving DecidableEq, Repr

/-- A `fetch` call: the URL (`none` when the data attribute is missing), the method, the
`X-CSRFToken` header (`none` is `null`) and the body. The content type is always
`application/json`. -/
structure Request where
  url : Option String
  method : String
  contentType : String
  csrfToken : Option String
  body : Body
deriving DecidableEq, Repr

/-- What a handler does to the outside world. -/
inductive Effect
  | swalFire (o : SwalOptions)
  | confirm (message : String)
  | alert (message : String)
  | fetch (r : Request)
  | reload
  | uncaught (e : JsError)
deriving DecidableEq, Repr

/-- The outcome of a `Swal.fire` dialog. -/
inductive SwalResult
  | confirmed
  | denied
  | dismissed
deriving DecidableEq, Repr

/-- The answers of the user: to the `Swal.fire` dialog and to the native `confirm`. -/
structure User where
  swal : SwalResult
  confirm : Bool
deriving DecidableEq, Repr

/-- The JSON body of a server reply. -/
structure ResponseData where
  success : Bool
  message : String
deriving DecidableEq, Repr

/-- The requests among the effects, in order. -/
def requests : List Effect → List Request
  | [] => []
  | .fetch r :: rest => r :: requests rest
  | _ :: rest => requests rest

/-- The page the user is left with: `location.reload()` discards it. -/
def pageAfter (effects : List Effect) (p : Page) : Option Page :=
  if Effect.reload ∈ effects then none else some p

/-- A lower-case hexadecimal digit. -/
def hexDigit (n : Nat) : Char :=
  if n < 10 then Char.ofNat (48 + n) else Char.ofNat (87 + n)

/-- The characters `QuoteJSONString` (ECMA-262, 25.5.2.3) writes for one character. -/
def jsonEscape (c : Char) : List Char :=
  let n := c.toNat
  if n = 0x22 then [Char.ofNat 0x5C, Char.ofNat 0x22]
  else if n = 0x5C then [Char.ofNat 0x5C, Char.ofNat 0x5C]
  else if n = 0x08 then [Char.ofNat 0x5C, 'b']
  else if n = 0x09 then [Char.ofNat 0x5C, 't']
  else if n = 0x0A then [Char.ofNat 0x5C, 'n']
  else if n = 0x0C then [Char.ofNat 0x5C, 'f']
  else if n = 0x0D then [Char.ofNat 0x5C, 'r']
  else if n < 0x20 then [Char.ofNat 0x5C, 'u', '0', '0', hexDigit (n / 16), hexDigit (n % 16)]
  else [c]

/-- The text `JSON.stringify` writes for a string. -/
def quoteJSONString (s : String) : String :=
  String.mk (Char.ofNat 0x22 :: (s.data.flatMap jsonEscape ++ [Char.ofNat 0x22]))

/-- The text `JSON.stringify` writes for an element of `ids`: `null` for NaN, the decimal
digits for an integer (as JavaScript does for `|z| < 10^21` exactly representable), the
quoted text for a string. -/
def JsValue.toJSON : JsValue → String
  | .number .nan => "null"
  | .number (.int z) => toString z
  | .string s => quoteJSONString s

/-- The text `JSON.stringify` writes for a request body. -/
def Body.stringify (b : Body) : String :=
  "\x7b" ++ quoteJSONString "ids" ++ ":[" ++ ",".intercalate (b.ids.map JsValue.toJSON) ++ "]" ++
    (match b.type with
     | some t => "," ++ quoteJSONString "type" ++ ":" ++ quoteJSONString t
     | none => "") ++ "\x7d"

/-- The closures the two scripts register with `addEventListener`, named by the place that
registers them: `table*` inside the `DOMContentLoaded` callback of `global-checkbox.js`,
`page*` at the top level of `global-checkbox.js`, `actions*` in `initTableActions`. -/
inductive Handler
  | tableMarkAllChange
  | tableRowChange
  | tableDeleteClick
  | pageMarkAllChange
  | pageRowChange
  | pageRestoreClick
  | pageDeleteClick
  | actionsMarkAllChange
  | actionsRowChange
  | actionsRestoreClick
  | actionsDeleteClick
deriving DecidableEq, Repr

/-- One `target.addEventListener(event, handler)` with the closure environment. -/
structure Listener where
  target : Ref
  event : String
  handler : Handler
  scope : Scope
deriving DecidableEq, Repr

/-- The listeners registered so far and the exception that ended the run, if any. -/
structure InitResult where
  listeners : List Listener
  error : Option JsError
deriving DecidableEq, Repr

/-- The loop `checkboxes.forEach(cb => cb.checked = markAll.checked)`. -/
def setAll (markAll : Ref) : List Ref → Page → Page
  | [], p => p
  | cb :: rest, p => setAll markAll rest (p.setChecked cb (p.checked markAll))

/-- The test `Array.from(checkboxes).some(cb => cb.checked)`. -/
def anyChecked (checkboxes : List Ref) (p : Page) : Bool :=
  checkboxes.any (fun cb => p.checked cb)

/-- The expression `anyChecked ? 'inline-block' : 'none'`. -/
def displayFor (any : Bool) : String :=
  if any then "inline-block" else "none"

/-- The elements of `Array.from(checkboxes).filter(cb => cb.checked)`. -/
def checkedRows (checkboxes : List Ref) (p : Page) : List Ref :=
  checkboxes.filter (fun cb => p.checked cb)

/-! ## `global_table_actions.js` -/

namespace TableActions

/-- The `for (let cookie of cookies)` loop of `getCSRFToken` (lines 6-12). -/
def getCSRFTokenLoop (cookieValue : Option String) :
    List (List Char) → Except JsError (Option String)
  | [] => .ok cookieValue
  | cookie :: rest =>
    let cookie := jsTrim cookie
    if jsStartsWith cookie "csrftoken=" then
      match decodeURIComponent (cookie.drop "csrftoken=".length) with
      | .ok v => .ok (some v)
      | .error e => .error e
    else getCSRFTokenLoop cookieValue rest

/-- The function `getCSRFToken` of `global_table_actions.js` (lines 2-15), on the value of
`document.cookie`. -/
def getCSRFToken (documentCookie : String) : Except JsError (Option String) :=
  let cookieValue : Option String := none
  if documentCookie ≠ "" then
    getCSRFTokenLoop cookieValue (jsSplit ';' documentCookie.data)
  else .ok cookieValue

/-- The function `toggleButtons` (lines 35-39). -/
def toggleButtons (s : Scope) (p : Page) : Page :=
  let any := anyChecked s.checkboxes p
  let p := match s.restoreBtn with
    | some b => p.setDisplay b (displayFor any)
    | none => p
  match s.deleteBtn with
  | some b => p.setDisplay b (displayFor any)
  | none => p

/-- The `change` handler of the master checkbox (lines 42-45). -/
def markAllChange (s : Scope) (p : Page) : Page :=
  toggleButtons s (setAll s.markAll s.checkboxes p)

/-- The `change` handler of a row checkbox (line 48). -/
def rowChange (s : Scope) (p : Page) : Page :=
  toggleButtons s p

/-- The array `selectedIds` (lines 53-55 and 78-80): the `value` strings of the checked rows. -/
def selectedIds (s : Scope) (p : Page) : List JsValue :=
  (checkedRows s.checkboxes p).map (fun cb => JsValue.string (p.value cb))

/-- The `click` handler of the restore button up to the `fetch` call (lines 52-65). -/
def restoreClick (s : Scope) (restoreBtn : Ref) (p : Page) : List Effect :=
  let ids := selectedIds s p
  if ids.length = 0 then []
  else
    match getCSRFToken p.cookie with
    | .ok token =>
      [.fetch { url := p.restoreUrl restoreBtn, method := "POST",
                contentType := "application/json", csrfToken := token,
                body := { ids := ids, type := none } }]
    | .error e => [.uncaught e]

/-- The reply callback of the restore request (lines 67-70). -/
def restoreOnData (data : ResponseData) : List Effect :=
  [.alert data.message, .reload]

/-- The closure `sendDelete` up to the `fetch` call (lines 85-93). -/
def sendDelete (deleteBtn : Ref) (ids : List JsValue) (deleteType : String) (p : Page) :
    List Effect :=
  match getCSRFToken p.cookie with
  | .ok token =>
    [.fetch { url := p.deleteUrl deleteBtn, method := "POST",
              contentType := "application/json", csrfToken := token,
              body := { ids := ids, type := some deleteType } }]
  | .error e => [.uncaught e]

/-- The reply callback of `sendDelete` (lines 95-98). -/
def sendDeleteOnData (data : ResponseData) : List Effect :=
  [.alert data.message, .reload]

/-- The `click` handler of the delete button (lines 77-119). -/
def deleteClick (s : Scope) (deleteBtn : Ref) (p : Page) (user : User) : List Effect :=
  let ids := selectedIds s p
  if ids.length = 0 then []
  else
    let deleteType := orDefault (p.dataType deleteBtn) "hard"
    let hard : Bool := deleteType = "hard"
    if p.swalDefined then
      .swalFire {
          title := if hard then "Delete Permanently?" else "Move to Trash?",
          html := some ("You are about to " ++
            (if hard then "permanently delete" else "move to trash") ++
            " <b>" ++ toString ids.length ++ "</b> record(s)."),
          icon := "warning",
          showCancelButton := true,
          confirmButtonColor := some "#d33",
          cancelButtonColor := some "#3085d6",
          confirmButtonText :=
            some (if hard then "Yes, Delete Permanently" else "Yes, Move to Trash") } ::
        (if user.swal = .confirmed then sendDelete deleteBtn ids deleteType p else [])
    else
      .confirm ("Are you sure you want to " ++
          (if hard then "permanently delete" else "move to trash") ++ " selected items?") ::
        (if user.confirm then sendDelete deleteBtn ids deleteType p else [])

/-- The argument of `initTableActions`; a property that is absent is `none`. -/
structure Options where
  tableSelector : Option String
  markAllSelector : Option String
  rowCheckboxSelector : Option String
  restoreBtnSelector : Option String
  deleteBtnSelector : Option String
deriving DecidableEq, Repr

/-- The lookup `sel ? document.querySelector(sel) : null` of an optional button (lines 30
and 31). -/
def buttonLookup (doc : Document) (sel : Option String) : Except JsError (Option Ref) :=
  if truthy sel then doc.query none (sel.getD "") else .ok none

/-- The registrations of lines 42-120 for the elements found: the change handler of the
master, the change handler of every row, and a click handler for each button that is not
null. -/
def registerHandlers (s : Scope) : List Listener :=
  [{ target := s.markAll, event := "change", handler := .actionsMarkAllChange, scope := s }]
    ++ s.checkboxes.map (fun cb =>
        { target := cb, event := "change", handler := .actionsRowChange, scope := s })
    ++ (match s.restoreBtn with
        | some b =>
          [{ target := b, event := "click", handler := .actionsRestoreClick, scope := s }]
        | none => [])
    ++ (match s.deleteBtn with
        | some b =>
          [{ target := b, event := "click", handler := .actionsDeleteClick, scope := s }]
        | none => [])

/-- The function `initTableActions` (lines 18-121), statement by statement: reading a
property of an `options` that is undefined raises TypeError (line 19); each lookup raises
SyntaxError on an invalid selector (lines 25-31; an undefined table selector is looked up
as the text `undefined`); the button lookups of lines 30-31 come before the guard of line
33. -/
def initTableActions (doc : Document) (options : Option Options) : InitResult :=
  match options with
  | none => { listeners := [], error := some .typeError }
  | some options =>
    let tableSelector := options.tableSelector
    let markAllSelector := orDefault options.markAllSelector "input.mark-all"
    let rowCheckboxSelector := orDefault options.rowCheckboxSelector "input.row-checkbox"
    let restoreBtnSelector := options.restoreBtnSelector
    let deleteBtnSelector := options.deleteBtnSelector
    match doc.query none (tableSelector.getD "undefined") with
    | .error e => { listeners := [], error := some e }
    | .ok none => { listeners := [], error := none }
    | .ok (some table) =>
      match doc.query (some table) markAllSelector with
      | .error e => { listeners := [], error := some e }
      | .ok markAll =>
        match doc.queryAll (some table) rowCheckboxSelector with
        | .error e => { listeners := [], error := some e }
        | .ok checkboxes =>
          match buttonLookup doc restoreBtnSelector with
          | .error e => { listeners := [], error := some e }
          | .ok restoreBtn =>
            match buttonLookup doc deleteBtnSelector with
            | .error e => { listeners := [], error := some e }
            | .ok deleteBtn =>
              match markAll with
              | none => { listeners := [], error := none }
              | some markAll =>
                if checkboxes.length = 0 then { listeners := [], error := none }
                else
                  { listeners := registerHandlers
                      { markAll := markAll, checkboxes := checkboxes,
                        restoreBtn := restoreBtn, deleteBtn := deleteBtn },
                    error := none }

end TableActions

/-! ## `global-checkbox.js`, the `DOMContentLoaded` callback (lines 1-107) -/

namespace GlobalCheckbox

/-- The `for (let cookie of cookies)` loop of `getCSRFToken` (lines 7-13). -/
def getCSRFTokenLoop (cookieValue : Option String) :
    List (List Char) → Except JsError (Option String)
  | [] => .ok cookieValue
  | cookie :: rest =>
    let cookie := jsTrim cookie
    if jsStartsWith cookie "csrftoken=" then
      match decodeURIComponent (cookie.drop "csrftoken=".length) with
      | .ok v => .ok (some v)
      | .error e => .error e
    else getCSRFTokenLoop cookieValue rest

/-- The function `getCSRFToken` of `global-checkbox.js` (lines 3-16), on the value of
`document.cookie`. -/
def getCSRFToken (documentCookie : String) : Except JsError (Option String) :=
  let cookieValue : Option String := none
  if documentCookie ≠ "" then
    getCSRFTokenLoop cookieValue (jsSplit ';' documentCookie.data)
  else .ok cookieValue

/-- The function `toggleDeleteButton` (lines 35-38). -/
def toggleDeleteButton (s : Scope) (p : Page) : Page :=
  let any := anyChecked s.checkboxes p
  match s.deleteBtn with
  | some b => p.setDisplay b (displayFor any)
  | none => p

/-- The `change` handler of the master checkbox (lines 27-30). -/
def markAllChange (s : Scope) (p : Page) : Page :=
  toggleDeleteButton s (setAll s.markAll s.checkboxes p)

/-- The `change` handler of a row checkbox (line 33). -/
def rowChange (s : Scope) (p : Page) : Page :=
  toggleDeleteButton s p

/-- The array `selectedIds` (lines 43-45): `parseInt` of the `value` of the checked rows. -/
def selectedIds (s : Scope) (p : Page) : List JsValue :=
  (checkedRows s.checkboxes p).map (fun cb => JsValue.number (parseInt (p.value cb)))

/-- The inner function `sendDeleteRequest` up to the `fetch` call (lines 71-79). -/
def sendDeleteRequest (url : Option String) (ids : List JsValue) (type : String) (p : Page) :
    List Effect :=
  match getCSRFToken p.cookie with
  | .ok token =>
    [.fetch { url := url, method := "POST", contentType := "application/json",
              csrfToken := token, body := { ids := ids, type := some type } }]
  | .error e => [.uncaught e]

/-- The reply callback of the inner `sendDeleteRequest` (lines 81-101); on success the
reload follows the notice. -/
def sendDeleteRequestOnData (p : Page) (data : ResponseData) : List Effect :=
  if data.success then
    if p.swalDefined then
      [.swalFire { title := "Deleted!", text := some data.message, icon := "success",
                   confirmButtonText := some "OK" },
       .reload]
    else [.alert data.message, .reload]
  else
    if p.swalDefined then
      [.swalFire { title := "Error", text := some data.message, icon := "error" }]
    else [.alert ("Delete failed: " ++ data.message)]

/-- The `click` handler of `#deleteSelectedBtn` (lines 41-69). -/
def deleteClick (s : Scope) (deleteBtn : Ref) (p : Page) (user : User) : List Effect :=
  let deleteUrl := p.deleteUrl deleteBtn
  let ids := selectedIds s p
  if ids.length = 0 then []
  else if p.swalDefined then
    .swalFire {
        title := "Delete Payslips",
        html := some ("You are about to delete <b>" ++ toString ids.length ++ "</b> record(s)."),
        icon := "warning",
        showCancelButton := true,
        showDenyButton := true,
        confirmButtonText := some "Move to Trash",
        denyButtonText := some "Delete Permanently",
        cancelButtonText := some "Cancel" } ::
      (if user.swal = .confirmed then sendDeleteRequest deleteUrl ids "soft" p
       else if user.swal = .denied then sendDeleteRequest deleteUrl ids "hard" p
       else [])
  else
    .confirm "Are you sure you want to delete selected items?" ::
      (if user.confirm then sendDeleteRequest deleteUrl ids "soft" p else [])

/-- The body of the `forEach` callback for one master checkbox (lines 19-106). Its
selectors are the valid literals `table`, `.row-checkbox` and `#deleteSelectedBtn`, so no
lookup raises. -/
def initTable (doc : Document) (markAll : Ref) : InitResult :=
  let table := doc.closest markAll "table"
  let checkboxes := doc.querySelectorAll table ".row-checkbox"
  let deleteBtn := doc.querySelector none "#deleteSelectedBtn"
  if checkboxes.length = 0 then { listeners := [], error := none }
  else
    let s : Scope :=
      { markAll := markAll, checkboxes := checkboxes, restoreBtn := none, deleteBtn := deleteBtn }
    let registered : List Listener :=
      [{ target := markAll, event := "change", handler := .tableMarkAllChange, scope := s }]
        ++ checkboxes.map (fun cb =>
            { target := cb, event := "change", handler := .tableRowChange, scope := s })
    match deleteBtn with
    | none => { listeners := registered, error := some .typeError }
    | some b =>
      { listeners := registered ++
          [{ target := b, event := "click", handler := .tableDeleteClick, scope := s }],
        error := none }

/-- The `forEach` over the master checkboxes: an exception ends the loop. -/
def initTables (doc : Document) : List Ref → InitResult
  | [] => { listeners := [], error := none }
  | markAll :: rest =>
    let r := initTable doc markAll
    match r.error with
    | some e => { listeners := r.listeners, error := some e }
    | none =>
      let r2 := initTables doc rest
      { listeners := r.listeners ++ r2.listeners, error := r2.error }

/-- The `DOMContentLoaded` callback (lines 1-107). -/
def domContentLoaded (doc : Document) : InitResult :=
  initTables doc (doc.querySelectorAll none "[id^='markAll']")

end GlobalCheckbox

/-! ## `global-checkbox.js`, the top-level statements (lines 120-193) -/

namespace GlobalCheckboxPage

/-- The function `toggleButtons` (lines 126-130): it throws at the first missing button,
keeping what it has assigned before. -/
def toggleButtons (s : Scope) (p : Page) : Page × Option JsError :=
  let any := anyChecked s.checkboxes p
  match s.restoreBtn with
  | none => (p, some .typeError)
  | some r =>
    let p := p.setDisplay r (displayFor any)
    match s.deleteBtn with
    | none => (p, some .typeError)
    | some d => (p.setDisplay d (displayFor any), none)

/-- The `change` handler of `#markAllPayslips` (lines 133-136). -/
def markAllChange (s : Scope) (p : Page) : Page × Option JsError :=
  toggleButtons s (setAll s.markAll s.checkboxes p)

/-- The `change` handler of a row checkbox (line 139). -/
def rowChange (s : Scope) (p : Page) : Page × Option JsError :=
  toggleButtons s p

/-- The array `selectedIds` (lines 143 and 160): the `value` strings of the checked rows. -/
def selectedIds (s : Scope) (p : Page) : List JsValue :=
  (checkedRows s.checkboxes p).map (fun cb => JsValue.string (p.value cb))

/-- The `click` handler of `#restoreSelectedBtn` up to the `fetch` call (lines 142-150). -/
def restoreClick (s : Scope) (restoreBtn : Ref) (p : Page) : List Effect :=
  let ids := selectedIds s p
  if ids.length = 0 then []
  else
    [.fetch { url := p.restoreUrl restoreBtn, method := "POST",
              contentType := "application/json", csrfToken := some "\x7b\x7b csrf_token \x7d\x7d",
              body := { ids := ids, type := none } }]

/-- The reply callback of the restore request (lines 152-155). -/
def restoreOnData (data : ResponseData) : List Effect :=
  [.alert data.message, .reload]

/-- The top-level function `sendDeleteRequest` up to the `fetch` call (lines 181-186). -/
def sendDeleteRequest (url : Option String) (ids : List JsValue) (type : String) :
    List Effect :=
  [.fetch { url := url, method := "POST", contentType := "application/json",
            csrfToken := some "\x7b\x7b csrf_token \x7d\x7d",
            body := { ids := ids, type := some type } }]

/-- The reply callback of the top-level `sendDeleteRequest` (lines 188-191). -/
def sendDeleteRequestOnData (data : ResponseData) : List Effect :=
  [.alert data.message, .reload]

/-- The `click` handler of `#deletePermanentlyBtn` (lines 159-178). -/
def deleteClick (s : Scope) (deleteBtn : Ref) (p : Page) (user : User) : List Effect :=
  let ids := selectedIds s p
  if ids.length = 0 then []
  else if p.swalDefined then
    .swalFire {
        title := "Delete Permanently?",
        html := some ("You are about to permanently delete <b>" ++ toString ids.length ++
          "</b> record(s)."),
        icon := "warning",
        showCancelButton := true,
        confirmButtonColor := some "#d33",
        cancelButtonColor := some "#3085d6",
        confirmButtonText := some "Yes, Delete Permanently" } ::
      (if user.swal = .confirmed then sendDeleteRequest (p.deleteUrl deleteBtn) ids "hard"
       else [])
  else
    .confirm "Delete permanently?" ::
      (if user.confirm then sendDeleteRequest (p.deleteUrl deleteBtn) ids "hard" else [])

/-- The top-level statements (lines 120-178): the lookups, then the registrations in
order; calling `addEventListener` on a missing element throws and ends the script. -/
def load (doc : Document) : InitResult :=
  let markAll := doc.getElementById "markAllPayslips"
  let checkboxes := doc.querySelectorAll none ".row-checkbox"
  let restoreBtn := doc.getElementById "restoreSelectedBtn"
  let deleteBtn := doc.getElementById "deletePermanentlyBtn"
  match markAll with
  | none => { listeners := [], error := some .typeError }
  | some m =>
    let s : Scope :=
      { markAll := m, checkboxes := checkboxes, restoreBtn := restoreBtn, deleteBtn := deleteBtn }
    let changes : List Listener :=
      [{ target := m, event := "change", handler := .pageMarkAllChange, scope := s }]
        ++ checkboxes.map (fun cb =>
            { target := cb, event := "change", handler := .pageRowChange, scope := s })
    match restoreBtn with
    | none => { listeners := changes, error := some .typeError }
    | some r =>
      let withRestore := changes ++
        [{ target := r, event := "click", handler := .pageRestoreClick, scope := s }]
      match deleteBtn with
      | none => { listeners := withRestore, error := some .typeError }
      | some d =>
        { listeners := withRestore ++
            [{ target := d, event := "click", handler := .pageDeleteClick, scope := s }],
          error := none }

end GlobalCheckboxPage

/-! ## Event dispatch -/

/-- Runs one listener as a `change` handler; click handlers do not run. -/
def Listener.runChange (l : Listener) (p : Page) : Page × Option JsError :=
  match l.handler with
  | .tableMarkAllChange => (GlobalCheckbox.markAllChange l.scope p, none)
  | .tableRowChange => (GlobalCheckbox.rowChange l.scope p, none)
  | .pageMarkAllChange => GlobalCheckboxPage.markAllChange l.scope p
  | .pageRowChange => GlobalCheckboxPage.rowChange l.scope p
  | .actionsMarkAllChange => (TableActions.markAllChange l.scope p, none)
  | .actionsRowChange => (TableActions.rowChange l.scope p, none)
  | _ => (p, none)

/-- Dispatch of a `change` event on `target`: its listeners run in registration order; an
exception in one is reported and does not stop the others. -/
def fireChange (target : Ref) : List Listener → Page → Page
  | [], p => p
  | l :: rest, p =>
    if l.target = target ∧ l.event = "change" then fireChange target rest (l.runChange p).1
    else fireChange target rest p

/-- The user toggles the checkbox `target`: its `checked` flips, then `change` is
dispatched. -/
def userToggle (ls : List Listener) (target : Ref) (p : Page) : Page :=
  fireChange target ls (p.setChecked target (!p.checked target))

/-- Runs one listener as a `click` handler; change handlers do not run. -/
def Listener.runClick (l : Listener) (p : Page) (user : User) : List Effect :=
  match l.handler with
  | .tableDeleteClick => GlobalCheckbox.deleteClick l.scope l.target p user
  | .pageRestoreClick => GlobalCheckboxPage.restoreClick l.scope l.target p
  | .pageDeleteClick => GlobalCheckboxPage.deleteClick l.scope l.target p user
  | .actionsRestoreClick => TableActions.restoreClick l.scope l.target p
  | .actionsDeleteClick => TableActions.deleteClick l.scope l.target p user
  | _ => []

/-! ## Properties stated by the specification -/

/-- The button `b` is shown (`inline-block`) exactly when a checkbox of `rows` is checked on
`p`, and hidden (`none`) exactly when none is. -/
def VisibleIffAnyChecked (rows : List Ref) (b : Ref) (p : Page) : Prop :=
  (p.display b = "inline-block" ↔ ∃ cb ∈ rows, p.checked cb = true) ∧
  (p.display b = "none" ↔ ∀ cb ∈ rows, p.checked cb = false)

/-- The entries of a cookie string as the specification words them: the `;`-separated
entries, trimmed of surrounding white space, that begin with `csrftoken=`. -/
def csrfEntries (documentCookie : String) : List (List Char) :=
  ((jsSplit ';' documentCookie.data).map jsTrim).filter (fun e => jsStartsWith e "csrftoken=")

/-! ## Example pages -/

/-- A payslip list: master checkbox `1`; rows `11`-`15` with identifiers 4, 5, 7, 8, 9, of
which 4, 7 and 9 are checked; `#deleteSelectedBtn` is `20`, `#restoreSelectedBtn` is `21`,
`#deletePermanentlyBtn` is `22`; SweetAlert is loaded. -/
def examplePage : Page where
  checked := fun r => r = 11 || r = 13 || r = 15
  value := fun r =>
    if r = 11 then "4" else if r = 12 then "5" else if r = 13 then "7"
    else if r = 14 then "8" else if r = 15 then "9" else ""
  display := fun r => if r = 20 ∨ r = 21 ∨ r = 22 then "inline-block" else ""
  deleteUrl := fun r => if r = 20 ∨ r = 22 then some "/payslips/delete" else none
  restoreUrl := fun r => if r = 21 then some "/payslips/restore" else none
  dataType := fun _ => none
  cookie := "sessionid=xyz; csrftoken=abc123"
  swalDefined := true

/-- The example page with a `csrftoken` cookie that is not valid percent-encoding. -/
def badCookiePage : Page :=
  { examplePage with cookie := "csrftoken=%" }

/-- The example page with no row checked and the buttons hidden. -/
def emptyPage : Page :=
  { examplePage with checked := fun _ => false, display := fun _ => "none" }

/-- The closure environment of the per-table handlers on the example page. -/
def tableScope : Scope :=
  { markAll := 1, checkboxes := [11, 12, 13, 14, 15], restoreBtn := none, deleteBtn := some 20 }

/-- The closure environment of the handlers that use the restore and the permanent-delete
button on the example page. -/
def trashScope : Scope :=
  { markAll := 1, checkboxes := [11, 12, 13, 14, 15], restoreBtn := some 21,
    deleteBtn := some 22 }

/-- Validity of the selectors the examples use: each is a valid selector, except the empty
string and `[`, on which `querySelector` raises SyntaxError. -/
def exampleValidSelector (sel : String) : Bool :=
  sel ≠ "" && sel ≠ "["

/-- Markup with one table `100` (`#payslipTable`) holding the master checkbox `1` and the
rows `11`-`15`, and no action button at all. -/
def noButtonDoc : Document where
  validSelector := exampleValidSelector
  querySelector := fun root sel =>
    if root = none ∧ sel = "#payslipTable" then some 100
    else if root = some 100 ∧ sel = "input.mark-all" then some 1
    else none
  querySelectorAll := fun root sel =>
    if root = none ∧ sel = "[id^='markAll']" then [1]
    else if (root = none ∨ root = some 100) ∧ (sel = ".row-checkbox" ∨ sel = "input.row-checkbox")
    then [11, 12, 13, 14, 15]
    else []
  closest := fun el sel =>
    if sel = "table" ∧ (el = 1 ∨ (11 ≤ el ∧ el ≤ 15)) then some 100 else none
  getElementById := fun id => if id = "markAllPayslips" then some 1 else none

/-- The call `initTableActions` documents as its example, with the delete button only. -/
def exampleOptions : TableActions.Options :=
  { tableSelector := some "#payslipTable", markAllSelector := none,
    rowCheckboxSelector := none, restoreBtnSelector := none,
    deleteBtnSelector := some "#deletePermanentlyBtn" }

/-- Options whose master selector matches nothing in the table and whose delete-button
selector `[` is not a valid selector. -/
def brokenOptions : TableActions.Options :=
  { tableSelector := some "#payslipTable", markAllSelector := some "input.no-such-master",
    rowCheckboxSelector := none, restoreBtnSelector := none, deleteBtnSelector := some "[" }

/-- Markup with two tables that follow the naming convention of `global-checkbox.js`:
table `101` holds the master `1` (`markAllA`) and the rows `11`, `12`; table `102` holds
the master `2` (`markAllB`) and the rows `21`, `22`; the page has one `#deleteSelectedBtn`,
element `30`. -/
def twoTableDoc : Document where
  validSelector := exampleValidSelector
  querySelector := fun root sel =>
    if root = none ∧ sel = "#deleteSelectedBtn" then some 30 else none
  querySelectorAll := fun root sel =>
    if root = none ∧ sel = "[id^='markAll']" then [1, 2]
    else if root = none ∧ sel = ".row-checkbox" then [11, 12, 21, 22]
    else if root = some 101 ∧ sel = ".row-checkbox" then [11, 12]
    else if root = some 102 ∧ sel = ".row-checkbox" then [21, 22]
    else []
  closest := fun el sel =>
    if sel = "table" ∧ (el = 1 ∨ el = 11 ∨ el = 12) then some 101
    else if sel = "table" ∧ (el = 2 ∨ el = 21 ∨ el = 22) then some 102
    else none
  getElementById := fun _ => none

/-- The two-table page as rendered: nothing checked, the delete button hidden. -/
def twoTablePage : Page where
  checked := fun _ => false
  value := fun r => toString r
  display := fun r => if r = 30 then "none" else ""
  deleteUrl := fun r => if r = 30 then some "/payslips/delete" else none
  restoreUrl := fun _ => none
  dataType := fun _ => none
  cookie := "csrftoken=abc123"
  swalDefined := true

/-- The listeners `global-checkbox.js` registers on the two-table page when
`DOMContentLoaded` fires. -/
def twoTableListeners : List Listener :=
  (GlobalCheckbox.domContentLoaded twoTableDoc).listeners

/-- The two-table page after the user has checked row `21` of the second table. -/
def afterCheckingSecond : Page :=
  userToggle twoTableListeners 21 twoTablePage

/-- The two-table page after the user has then checked and unchecked row `11` of the first
table. -/
def afterTogglingFirst : Page :=
  userToggle twoTableListeners 11 (userToggle twoTableListeners 11 afterCheckingSecond)

/-! ## Lemmas on the shared loops -/

theorem displayFor_inline (any : Bool) : displayFor any = "inline-block" ↔ any = true := by
  cases any <;> simp [displayFor]

theorem displayFor_none (any : Bool) : displayFor any = "none" ↔ any = false := by
  cases any <;> simp [displayFor]

theorem anyChecked_true_iff (rows : List Ref) (p : Page) :
    anyChecked rows p = true ↔ ∃ cb ∈ rows, p.checked cb = true := by
  simp [anyChecked, List.any_eq_true]

theorem anyChecked_false_iff (rows : List Ref) (p : Page) :
    anyChecked rows p = false ↔ ∀ cb ∈ rows, p.checked cb = false := by
  simp [anyChecked, List.any_eq_false]

theorem anyChecked_congr (rows : List Ref) (p q : Page) (h : q.checked = p.checked) :
    anyChecked rows q = anyChecked rows p := by
  simp [anyChecked, h]

theorem visible_of_display (rows : List Ref) (b : Ref) (p : Page)
    (h : p.display b = displayFor (anyChecked rows p)) : VisibleIffAnyChecked rows b p := by
  unfold VisibleIffAnyChecked
  rw [h, displayFor_inline, displayFor_none, anyChecked_true_iff, anyChecked_false_iff]
  exact ⟨Iff.rfl, Iff.rfl⟩

theorem setAll_display (m : Ref) (rows : List Ref) (p : Page) :
    (setAll m rows p).display = p.display := by
  induction rows generalizing p with
  | nil => rfl
  | cons cb rest ih => simp [setAll, ih, Page.setChecked]

theorem setAll_checked_markAll (m : Ref) (rows : List Ref) (p : Page) :
    (setAll m rows p).checked m = p.checked m := by
  induction rows generalizing p with
  | nil => rfl
  | cons cb rest ih =>
    simp only [setAll]
    rw [ih]
    simp [Page.setChecked, Function.update_apply]

theorem setAll_checked_not_mem (m : Ref) (rows : List Ref) (p : Page) (cb : Ref)
    (h : cb ∉ rows) : (setAll m rows p).checked cb = p.checked cb := by
  induction rows generalizing p with
  | nil => rfl
  | cons c rest ih =>
    have hne : cb ≠ c := fun e => h (e ▸ List.mem_cons_self _ _)
    have hrest : cb ∉ rest := fun e => h (List.mem_cons_of_mem _ e)
    simp only [setAll]
    rw [ih _ hrest]
    simp [Page.setChecked, Function.update_apply, hne]

theorem setAll_checked_mem (m : Ref) (rows : List Ref) (p : Page) (cb : Ref)
    (h : cb ∈ rows) : (setAll m rows p).checked cb = p.checked m := by
  induction rows generalizing p with
  | nil => exact absurd h (List.not_mem_nil _)
  | cons c rest ih =>
    simp only [setAll]
    by_cases hrest : cb ∈ rest
    · rw [ih _ hrest]
      simp [Page.setChecked, Function.update_apply]
    · have hc : cb = c := by
        rcases List.mem_cons.mp h with e | e
        · exact e
        · exact absurd e hrest
      rw [setAll_checked_not_mem _ _ _ _ hrest]
      simp [Page.setChecked, Function.update_apply, hc]

/-! ## Lemmas on the visibility updates -/

theorem table_toggle_checked (s : Scope) (p : Page) :
    (GlobalCheckbox.toggleDeleteButton s p).checked = p.checked := by
  unfold GlobalCheckbox.toggleDeleteButton
  cases s.deleteBtn <;> rfl

theorem table_toggle_display (s : Scope) (p : Page) (b : Ref) (h : s.deleteBtn = some b) :
    (GlobalCheckbox.toggleDeleteButton s p).display b = displayFor (anyChecked s.checkboxes p) := by
  simp [GlobalCheckbox.toggleDeleteButton, h, Page.setDisplay]

theorem actions_toggle_checked (s : Scope) (p : Page) :
    (TableActions.toggleButtons s p).checked = p.checked := by
  unfold TableActions.toggleButtons
  cases s.restoreBtn <;> cases s.deleteBtn <;> rfl

theorem actions_toggle_display (s : Scope) (p : Page) (b : Ref)
    (h : s.restoreBtn = some b ∨ s.deleteBtn = some b) :
    (TableActions.toggleButtons s p).display b = displayFor (anyChecked s.checkboxes p) := by
  unfold TableActions.toggleButtons
  rcases h with h | h
  · cases hd : s.deleteBtn <;> simp [h, Page.setDisplay, Function.update_apply]
  · cases hr : s.restoreBtn <;> simp [h, Page.setDisplay, Function.update_apply]

theorem page_toggle_checked (s : Scope) (p : Page) :
    (GlobalCheckboxPage.toggleButtons s p).1.checked = p.checked := by
  unfold GlobalCheckboxPage.toggleButtons
  cases s.restoreBtn <;> cases s.deleteBtn <;> rfl

theorem page_toggle_ok (s : Scope) (p : Page) (r d : Ref)
    (hr : s.restoreBtn = some r) (hd : s.deleteBtn = some d) :
    (GlobalCheckboxPage.toggleButtons s p).2 = none := by
  simp [GlobalCheckboxPage.toggleButtons, hr, hd]

theorem page_toggle_display (s : Scope) (p : Page) (r d b : Ref)
    (hr : s.restoreBtn = some r) (hd : s.deleteBtn = some d) (hb : b = r ∨ b = d) :
    (GlobalCheckboxPage.toggleButtons s p).1.display b
      = displayFor (anyChecked s.checkboxes p) := by
  rcases hb with hb | hb <;>
    simp [GlobalCheckboxPage.toggleButtons, hr, hd, hb, Page.setDisplay, Function.update_apply]

theorem table_toggle_visible (s : Scope) (p : Page) (b : Ref) (h : s.deleteBtn = some b) :
    VisibleIffAnyChecked s.checkboxes b (GlobalCheckbox.toggleDeleteButton s p) := by
  apply visible_of_display
  rw [table_toggle_display s p b h]
  exact congrArg displayFor (anyChecked_congr _ _ _ (table_toggle_checked s p)).symm

theorem actions_toggle_visible (s : Scope) (p : Page) (b : Ref)
    (h : s.restoreBtn = some b ∨ s.deleteBtn = some b) :
    VisibleIffAnyChecked s.checkboxes b (TableActions.toggleButtons s p) := by
  apply visible_of_display
  rw [actions_toggle_display s p b h]
  exact congrArg displayFor (anyChecked_congr _ _ _ (actions_toggle_checked s p)).symm

theorem page_toggle_visible (s : Scope) (p : Page) (r d b : Ref)
    (hr : s.restoreBtn = some r) (hd : s.deleteBtn = some d) (hb : b = r ∨ b = d) :
    VisibleIffAnyChecked s.checkboxes b (GlobalCheckboxPage.toggleButtons s p).1 := by
  apply visible_of_display
  rw [page_toggle_display s p r d b hr hd hb]
  exact congrArg displayFor (anyChecked_congr _ _ _ (page_toggle_checked s p)).symm

/-! ## Claims on selection and visibility -/

/-- Claim C4: immediately after the change handler of the master checkbox or of a row
checkbox has run, every action button of the scope is shown (`inline-block`) exactly when
at least one row checkbox of the scope is checked, and hidden (`none`) exactly when none
is: for the delete button of `toggleDeleteButton` (`global-checkbox.js`) and for the
restore and the delete button of `toggleButtons` (`global_table_actions.js`), for every
scope and every state of its checkboxes. -/
theorem buttons_track_selection (s : Scope) (p : Page) (b : Ref) :
    (s.deleteBtn = some b →
      VisibleIffAnyChecked s.checkboxes b (GlobalCheckbox.markAllChange s p) ∧
      VisibleIffAnyChecked s.checkboxes b (GlobalCheckbox.rowChange s p)) ∧
    (s.restoreBtn = some b ∨ s.deleteBtn = some b →
      VisibleIffAnyChecked s.checkboxes b (TableActions.markAllChange s p) ∧
      VisibleIffAnyChecked s.checkboxes b (TableActions.rowChange s p)) := by
  refine ⟨fun h => ⟨?_, ?_⟩, fun h => ⟨?_, ?_⟩⟩
  · exact table_toggle_visible s _ b h
  · exact table_toggle_visible s p b h
  · exact actions_toggle_visible s _ b h
  · exact actions_toggle_visible s p b h

/-- The top-level `toggleButtons` of `global-checkbox.js` has no null guard: on a page where
both `#restoreSelectedBtn` and `#deletePermanentlyBtn` were found its change handlers raise
nothing and leave both buttons shown exactly when a row checkbox is checked. -/
theorem page_buttons_track_selection (s : Scope) (p : Page) (r d b : Ref)
    (hr : s.restoreBtn = some r) (hd : s.deleteBtn = some d) (hb : b = r ∨ b = d) :
    ((GlobalCheckboxPage.markAllChange s p).2 = none ∧
      VisibleIffAnyChecked s.checkboxes b (GlobalCheckboxPage.markAllChange s p).1) ∧
    ((GlobalCheckboxPage.rowChange s p).2 = none ∧
      VisibleIffAnyChecked s.checkboxes b (GlobalCheckboxPage.rowChange s p).1) :=
  ⟨⟨page_toggle_ok s _ r d hr hd, page_toggle_visible s _ r d b hr hd hb⟩,
    page_toggle_ok s p r d hr hd, page_toggle_visible s p r d b hr hd hb⟩

/-- Claim C5: the change handler of the master checkbox leaves every row checkbox of its
scope with the checked state of the master checkbox, in each of the three handlers (the
per-table and the top-level one of `global-checkbox.js`, the one of
`global_table_actions.js`); the master's state is the one it had when the handler started. -/
theorem master_change_sets_every_row (s : Scope) (p : Page) (cb : Ref) (h : cb ∈ s.checkboxes) :
    ((GlobalCheckbox.markAllChange s p).checked cb = p.checked s.markAll ∧
      (GlobalCheckbox.markAllChange s p).checked cb
        = (GlobalCheckbox.markAllChange s p).checked s.markAll) ∧
    ((GlobalCheckboxPage.markAllChange s p).1.checked cb = p.checked s.markAll ∧
      (GlobalCheckboxPage.markAllChange s p).1.checked cb
        = (GlobalCheckboxPage.markAllChange s p).1.checked s.markAll) ∧
    ((TableActions.markAllChange s p).checked cb = p.checked s.markAll ∧
      (TableActions.markAllChange s p).checked cb
        = (TableActions.markAllChange s p).checked s.markAll) := by
  simp only [GlobalCheckbox.markAllChange, GlobalCheckboxPage.markAllChange,
    TableActions.markAllChange, table_toggle_checked, page_toggle_checked,
    actions_toggle_checked, setAll_checked_mem _ _ _ _ h, setAll_checked_markAll, and_self]

/-- Claim C10: neither the change handler of the master checkbox nor the change handler of
a row checkbox modifies the checked state of the master checkbox, whatever the prior
state, in each of the three implementations. -/
theorem handlers_keep_master (s : Scope) (p : Page) :
    ((GlobalCheckbox.markAllChange s p).checked s.markAll = p.checked s.markAll ∧
      (GlobalCheckbox.rowChange s p).checked s.markAll = p.checked s.markAll) ∧
    ((GlobalCheckboxPage.markAllChange s p).1.checked s.markAll = p.checked s.markAll ∧
      (GlobalCheckboxPage.rowChange s p).1.checked s.markAll = p.checked s.markAll) ∧
    ((TableActions.markAllChange s p).checked s.markAll = p.checked s.markAll ∧
      (TableActions.rowChange s p).checked s.markAll = p.checked s.markAll) := by
  simp only [GlobalCheckbox.markAllChange, GlobalCheckboxPage.markAllChange,
    TableActions.markAllChange, GlobalCheckbox.rowChange, GlobalCheckboxPage.rowChange,
    TableActions.rowChange, table_toggle_checked, page_toggle_checked,
    actions_toggle_checked, setAll_checked_markAll, and_self]

/-! ## Lemmas on the selection -/

theorem checkedRows_eq_nil (rows : List Ref) (p : Page)
    (h : ∀ cb ∈ rows, p.checked cb = false) : checkedRows rows p = [] := by
  simp only [checkedRows, List.filter_eq_nil_iff]
  intro cb hcb
  simp [h cb hcb]

theorem checkedRows_ne_nil (rows : List Ref) (p : Page)
    (h : ∃ cb ∈ rows, p.checked cb = true) : checkedRows rows p ≠ [] := by
  obtain ⟨cb, hcb, hc⟩ := h
  intro hnil
  have hmem : cb ∈ checkedRows rows p := by
    simp only [checkedRows, List.mem_filter]
    exact ⟨hcb, hc⟩
  rw [hnil] at hmem
  exact absurd hmem (List.not_mem_nil _)

theorem table_ids_length (s : Scope) (p : Page) :
    (GlobalCheckbox.selectedIds s p).length = (checkedRows s.checkboxes p).length := by
  simp [GlobalCheckbox.selectedIds]

theorem page_ids_length (s : Scope) (p : Page) :
    (GlobalCheckboxPage.selectedIds s p).length = (checkedRows s.checkboxes p).length := by
  simp [GlobalCheckboxPage.selectedIds]

theorem actions_ids_length (s : Scope) (p : Page) :
    (TableActions.selectedIds s p).length = (checkedRows s.checkboxes p).length := by
  simp [TableActions.selectedIds]

theorem length_pos_of_selection (rows : List Ref) (p : Page)
    (h : ∃ cb ∈ rows, p.checked cb = true) : (checkedRows rows p).length ≠ 0 := by
  intro h0
  exact checkedRows_ne_nil rows p h (List.length_eq_zero.mp h0)

theorem table_sendDeleteRequest_ids (url : Option String) (ids : List JsValue) (type : String)
    (p : Page) (r : Request)
    (h : r ∈ requests (GlobalCheckbox.sendDeleteRequest url ids type p)) : r.body.ids = ids := by
  unfold GlobalCheckbox.sendDeleteRequest at h
  split at h
  · simp [requests] at h
    rw [h]
  · simp [requests] at h

theorem actions_sendDelete_ids (btn : Ref) (ids : List JsValue) (type : String)
    (p : Page) (r : Request)
    (h : r ∈ requests (TableActions.sendDelete btn ids type p)) : r.body.ids = ids := by
  unfold TableActions.sendDelete at h
  split at h
  · simp [requests] at h
    rw [h]
  · simp [requests] at h

theorem table_deleteClick_ids (s : Scope) (btn : Ref) (p : Page) (user : User) (r : Request)
    (h : r ∈ requests (GlobalCheckbox.deleteClick s btn p user)) :
    r.body.ids = GlobalCheckbox.selectedIds s p ∧ GlobalCheckbox.selectedIds s p ≠ [] := by
  unfold GlobalCheckbox.deleteClick at h
  by_cases h0 : (GlobalCheckbox.selectedIds s p).length = 0
  · simp [h0, requests] at h
  · have hne : GlobalCheckbox.selectedIds s p ≠ [] := fun e => h0 (by rw [e]; rfl)
    refine ⟨?_, hne⟩
    simp only [h0, if_false] at h
    split at h
    · simp only [requests] at h
      split at h
      · exact table_sendDeleteRequest_ids _ _ _ _ _ h
      · split at h
        · exact table_sendDeleteRequest_ids _ _ _ _ _ h
        · simp [requests] at h
    · simp only [requests] at h
      split at h
      · exact table_sendDeleteRequest_ids _ _ _ _ _ h
      · simp [requests] at h

theorem actions_deleteClick_ids (s : Scope) (btn : Ref) (p : Page) (user : User) (r : Request)
    (h : r ∈ requests (TableActions.deleteClick s btn p user)) :
    r.body.ids = TableActions.selectedIds s p ∧ TableActions.selectedIds s p ≠ [] := by
  unfold TableActions.deleteClick at h
  by_cases h0 : (TableActions.selectedIds s p).length = 0
  · simp [h0, requests] at h
  · have hne : TableActions.selectedIds s p ≠ [] := fun e => h0 (by rw [e]; rfl)
    refine ⟨?_, hne⟩
    simp only [h0, if_false] at h
    split at h
    · simp only [requests] at h
      split at h
      · exact actions_sendDelete_ids _ _ _ _ _ h
      · simp [requests] at h
    · simp only [requests] at h
      split at h
      · exact actions_sendDelete_ids _ _ _ _ _ h
      · simp [requests] at h

theorem actions_restoreClick_ids (s : Scope) (btn : Ref) (p : Page) (r : Request)
    (h : r ∈ requests (TableActions.restoreClick s btn p)) :
    r.body.ids = TableActions.selectedIds s p ∧ TableActions.selectedIds s p ≠ [] := by
  unfold TableActions.restoreClick at h
  by_cases h0 : (TableActions.selectedIds s p).length = 0
  · simp [h0, requests] at h
  · have hne : TableActions.selectedIds s p ≠ [] := fun e => h0 (by rw [e]; rfl)
    refine ⟨?_, hne⟩
    simp only [h0, if_false] at h
    split at h
    · simp [requests] at h
      rw [h]
    · simp [requests] at h

theorem page_deleteClick_ids (s : Scope) (btn : Ref) (p : Page) (user : User) (r : Request)
    (h : r ∈ requests (GlobalCheckboxPage.deleteClick s btn p user)) :
    r.body.ids = GlobalCheckboxPage.selectedIds s p ∧
      GlobalCheckboxPage.selectedIds s p ≠ [] := by
  unfold GlobalCheckboxPage.deleteClick at h
  by_cases h0 : (GlobalCheckboxPage.selectedIds s p).length = 0
  · simp [h0, requests] at h
  · have hne : GlobalCheckboxPage.selectedIds s p ≠ [] := fun e => h0 (by rw [e]; rfl)
    refine ⟨?_, hne⟩
    simp only [h0, if_false] at h
    split at h
    · simp only [requests] at h
      split at h
      · simp [GlobalCheckboxPage.sendDeleteRequest, requests] at h
        rw [h]
      · simp [requests] at h
    · simp only [requests] at h
      split at h
      · simp [GlobalCheckboxPage.sendDeleteRequest, requests] at h
        rw [h]
      · simp [requests] at h

theorem page_restoreClick_ids (s : Scope) (btn : Ref) (p : Page) (r : Request)
    (h : r ∈ requests (GlobalCheckboxPage.restoreClick s btn p)) :
    r.body.ids = GlobalCheckboxPage.selectedIds s p ∧
      GlobalCheckboxPage.selectedIds s p ≠ [] := by
  unfold GlobalCheckboxPage.restoreClick at h
  by_cases h0 : (GlobalCheckboxPage.selectedIds s p).length = 0
  · simp [h0, requests] at h
  · have hne : GlobalCheckboxPage.selectedIds s p ≠ [] := fun e => h0 (by rw [e]; rfl)
    refine ⟨?_, hne⟩
    simp [h0, requests] at h
    rw [h]

/-! ## Claims on the click handlers -/

theorem click_handlers_idle (s : Scope) (btn : Ref) (p : Page) (user : User)
    (h : ∀ cb ∈ s.checkboxes, p.checked cb = false) :
    GlobalCheckbox.deleteClick s btn p user = [] ∧
    GlobalCheckboxPage.restoreClick s btn p = [] ∧
    GlobalCheckboxPage.deleteClick s btn p user = [] ∧
    TableActions.restoreClick s btn p = [] ∧
    TableActions.deleteClick s btn p user = [] := by
  have hnil := checkedRows_eq_nil s.checkboxes p h
  refine ⟨?_, ?_, ?_, ?_, ?_⟩
  · simp [GlobalCheckbox.deleteClick, GlobalCheckbox.selectedIds, hnil]
  · simp [GlobalCheckboxPage.restoreClick, GlobalCheckboxPage.selectedIds, hnil]
  · simp [GlobalCheckboxPage.deleteClick, GlobalCheckboxPage.selectedIds, hnil]
  · simp [TableActions.restoreClick, TableActions.selectedIds, hnil]
  · simp [TableActions.deleteClick, TableActions.selectedIds, hnil]

/-- Claim C1: in each of the five click handlers of the two files, when no row checkbox of
the scope is checked the handler does nothing at all (no dialog, no request, no other
effect), whatever the user would answer; the same holds for whichever listener a click is
dispatched to; and every request a handler sends carries a non-empty `ids` list. -/
theorem no_selection_no_request (s : Scope) (btn : Ref) (p : Page) (user : User) :
    ((∀ cb ∈ s.checkboxes, p.checked cb = false) →
      GlobalCheckbox.deleteClick s btn p user = [] ∧
      GlobalCheckboxPage.restoreClick s btn p = [] ∧
      GlobalCheckboxPage.deleteClick s btn p user = [] ∧
      TableActions.restoreClick s btn p = [] ∧
      TableActions.deleteClick s btn p user = []) ∧
    (∀ l : Listener, (∀ cb ∈ l.scope.checkboxes, p.checked cb = false) →
      l.runClick p user = []) ∧
    (∀ r,
      (r ∈ requests (GlobalCheckbox.deleteClick s btn p user) ∨
        r ∈ requests (GlobalCheckboxPage.restoreClick s btn p) ∨
        r ∈ requests (GlobalCheckboxPage.deleteClick s btn p user) ∨
        r ∈ requests (TableActions.restoreClick s btn p) ∨
        r ∈ requests (TableActions.deleteClick s btn p user)) →
      r.body.ids ≠ []) := by
  refine ⟨click_handlers_idle s btn p user, ?_, ?_⟩
  · intro l h
    obtain ⟨h1, h2, h3, h4, h5⟩ := click_handlers_idle l.scope l.target p user h
    unfold Listener.runClick
    cases l.handler <;> simp [h1, h2, h3, h4, h5]
  · intro r h
    rcases h with h | h | h | h | h
    · obtain ⟨h1, h2⟩ := table_deleteClick_ids s btn p user r h
      rw [h1]; exact h2
    · obtain ⟨h1, h2⟩ := page_restoreClick_ids s btn p r h
      rw [h1]; exact h2
    · obtain ⟨h1, h2⟩ := page_deleteClick_ids s btn p user r h
      rw [h1]; exact h2
    · obtain ⟨h1, h2⟩ := actions_restoreClick_ids s btn p r h
      rw [h1]; exact h2
    · obtain ⟨h1, h2⟩ := actions_deleteClick_ids s btn p user r h
      rw [h1]; exact h2

/-- Claim C2, as stated, fails: on the example page the top-level handler of
`#deletePermanentlyBtn` answers Confirm with one request of type `hard`, not `soft`; the
dialog of `initTableActions` has no Deny button and its handler sends nothing on Deny; and
the per-table handler sends nothing on Confirm when `getCSRFToken` throws on the cookie. -/
theorem confirm_not_always_soft :
    (requests (GlobalCheckboxPage.deleteClick trashScope 22 examplePage
        { swal := .confirmed, confirm := false })).map (fun r => r.body.type) = [some "hard"] ∧
    requests (TableActions.deleteClick trashScope 22 examplePage
        { swal := .denied, confirm := false }) = [] ∧
    requests (GlobalCheckbox.deleteClick tableScope 20 badCookiePage
        { swal := .confirmed, confirm := false }) = [] := by
  refine ⟨?_, ?_, ?_⟩ <;> rfl

/-- Claim C2, amended: with a non-empty selection and the rich dialog available, the
per-table handler of `#deleteSelectedBtn` (`global-checkbox.js`) sends exactly one request
of type `hard` on Deny, exactly one of type `soft` on Confirm and none on Cancel, provided
`getCSRFToken` returns; the top-level handler of `#deletePermanentlyBtn` sends exactly one
request of type `hard` on Confirm and none on Deny or Cancel; the handler of
`initTableActions` sends on Confirm exactly one request whose type is the button's
`data-type`, or `hard` when that is missing or empty, provided `getCSRFToken` returns, and
none on Deny or Cancel. -/
theorem delete_dialog_outcomes (s : Scope) (btn : Ref) (p : Page) (confirm : Bool)
    (hsel : ∃ cb ∈ s.checkboxes, p.checked cb = true) (hswal : p.swalDefined = true) :
    (∀ token, GlobalCheckbox.getCSRFToken p.cookie = .ok token →
      (∃ r, requests (GlobalCheckbox.deleteClick s btn p { swal := .denied, confirm := confirm })
          = [r] ∧ r.body.type = some "hard") ∧
      (∃ r, requests (GlobalCheckbox.deleteClick s btn p
            { swal := .confirmed, confirm := confirm }) = [r] ∧ r.body.type = some "soft") ∧
      requests (GlobalCheckbox.deleteClick s btn p { swal := .dismissed, confirm := confirm })
        = []) ∧
    ((∃ r, requests (GlobalCheckboxPage.deleteClick s btn p
            { swal := .confirmed, confirm := confirm }) = [r] ∧ r.body.type = some "hard") ∧
      requests (GlobalCheckboxPage.deleteClick s btn p { swal := .denied, confirm := confirm })
        = [] ∧
      requests (GlobalCheckboxPage.deleteClick s btn p
        { swal := .dismissed, confirm := confirm }) = []) ∧
    (∀ token, TableActions.getCSRFToken p.cookie = .ok token →
      (∃ r, requests (TableActions.deleteClick s btn p
            { swal := .confirmed, confirm := confirm }) = [r] ∧
          r.body.type = some (orDefault (p.dataType btn) "hard")) ∧
      requests (TableActions.deleteClick s btn p { swal := .denied, confirm := confirm })
        = [] ∧
      requests (TableActions.deleteClick s btn p { swal := .dismissed, confirm := confirm })
        = []) := by
  have hlen := length_pos_of_selection s.checkboxes p hsel
  have h1 : ¬ (GlobalCheckbox.selectedIds s p).length = 0 := by
    rw [table_ids_length]; exact hlen
  have h2 : ¬ (GlobalCheckboxPage.selectedIds s p).length = 0 := by
    rw [page_ids_length]; exact hlen
  have h3 : ¬ (TableActions.selectedIds s p).length = 0 := by
    rw [actions_ids_length]; exact hlen
  refine ⟨fun token htok => ⟨?_, ?_, ?_⟩, ⟨?_, ?_, ?_⟩, fun token htok => ⟨?_, ?_, ?_⟩⟩
  · simp [GlobalCheckbox.deleteClick, h1, hswal, GlobalCheckbox.sendDeleteRequest, htok,
      requests]
  · simp [GlobalCheckbox.deleteClick, h1, hswal, GlobalCheckbox.sendDeleteRequest, htok,
      requests]
  · simp [GlobalCheckbox.deleteClick, h1, hswal, requests]
  · simp [GlobalCheckboxPage.deleteClick, h2, hswal, GlobalCheckboxPage.sendDeleteRequest,
      requests]
  · simp [GlobalCheckboxPage.deleteClick, h2, hswal, requests]
  · simp [GlobalCheckboxPage.deleteClick, h2, hswal, requests]
  · simp [TableActions.deleteClick, h3, hswal, TableActions.sendDelete, htok, requests]
  · simp [TableActions.deleteClick, h3, hswal, requests]
  · simp [TableActions.deleteClick, h3, hswal, requests]

/-- Claim C2, amended, at the example page: rows 4, 7 and 9 are checked and the cookie
holds a readable token. -/
theorem delete_dialog_outcomes_witness :
    (∃ cb ∈ tableScope.checkboxes, examplePage.checked cb = true) ∧
    examplePage.swalDefined = true ∧
    (∃ r, requests (GlobalCheckbox.deleteClick tableScope 20 examplePage
          { swal := .denied, confirm := false }) = [r] ∧ r.body.type = some "hard") ∧
    (∃ r, requests (GlobalCheckbox.deleteClick tableScope 20 examplePage
          { swal := .confirmed, confirm := false }) = [r] ∧ r.body.type = some "soft") ∧
    requests (GlobalCheckbox.deleteClick tableScope 20 examplePage
      { swal := .dismissed, confirm := false }) = [] :=
  ⟨⟨11, by decide, rfl⟩, rfl,
    (delete_dialog_outcomes tableScope 20 examplePage false ⟨11, by decide, rfl⟩ rfl).1
      (some "abc123") rfl⟩

/-- Claim C3, as stated, fails: the reply callback of `sendDelete` in
`global_table_actions.js` answers a reply with `success: false` and message `X` by a plain
`alert` and a reload of the view, so the page with its selection is discarded. -/
theorem failure_reply_reloads :
    TableActions.sendDeleteOnData { success := false, message := "X" }
      = [.alert "X", .reload] ∧
    pageAfter (TableActions.sendDeleteOnData { success := false, message := "X" }) examplePage
      = none := by
  constructor <;> rfl

/-- Claim C3, amended: for the requests of the per-table `sendDeleteRequest` of
`global-checkbox.js`, a reply with `success: false` and message `X` shows one error notice
with `X` in it (the `Error` dialog with text `X`, or the alert `Delete failed: X` without
SweetAlert) and does not reload, so the page and its checked rows stay as they are. The
four other reply callbacks (restore and delete at the top level of `global-checkbox.js`,
restore and delete of `initTableActions`) show `X` in a plain alert and reload the view
whatever `success` is. -/
theorem failure_reply_outcomes (p : Page) (X : String) (success : Bool) :
    (p.swalDefined = true →
      GlobalCheckbox.sendDeleteRequestOnData p { success := false, message := X }
        = [.swalFire { title := "Error", text := some X, icon := "error" }]) ∧
    (p.swalDefined = false →
      GlobalCheckbox.sendDeleteRequestOnData p { success := false, message := X }
        = [.alert ("Delete failed: " ++ X)]) ∧
    Effect.reload ∉ GlobalCheckbox.sendDeleteRequestOnData p { success := false, message := X } ∧
    pageAfter (GlobalCheckbox.sendDeleteRequestOnData p { success := false, message := X }) p
      = some p ∧
    GlobalCheckboxPage.restoreOnData { success := success, message := X }
      = [.alert X, .reload] ∧
    GlobalCheckboxPage.sendDeleteRequestOnData { success := success, message := X }
      = [.alert X, .reload] ∧
    TableActions.restoreOnData { success := success, message := X } = [.alert X, .reload] ∧
    TableActions.sendDeleteOnData { success := success, message := X }
      = [.alert X, .reload] := by
  refine ⟨?_, ?_, ?_, ?_, rfl, rfl, rfl, rfl⟩
  · intro h
    simp [GlobalCheckbox.sendDeleteRequestOnData, h]
  · intro h
    simp [GlobalCheckbox.sendDeleteRequestOnData, h]
  · cases h : p.swalDefined <;> simp [GlobalCheckbox.sendDeleteRequestOnData, h]
  · cases h : p.swalDefined <;> simp [GlobalCheckbox.sendDeleteRequestOnData, pageAfter, h]

/-- Claim C3, amended, at the example page, where SweetAlert is loaded. -/
theorem failure_reply_outcomes_witness :
    examplePage.swalDefined = true ∧
    GlobalCheckbox.sendDeleteRequestOnData examplePage { success := false, message := "X" }
      = [.swalFire { title := "Error", text := some "X", icon := "error" }] :=
  ⟨rfl, (failure_reply_outcomes examplePage "X" false).1 rfl⟩

/-- Claim C8, as stated, fails: on the example page, with rows 4, 7 and 9 checked and the
dialog confirmed, the delete handler of `initTableActions` posts the identifiers as
strings and with type `hard`. -/
theorem confirmed_delete_posts_strings_hard :
    (requests (TableActions.deleteClick trashScope 22 examplePage
        { swal := .confirmed, confirm := true })).map (fun r => (r.url, r.body.stringify))
      = [(some "/payslips/delete",
          "\x7b\"ids\":[\"4\",\"7\",\"9\"],\"type\":\"hard\"\x7d")] := by
  rfl

/-- Claim C8, amended: with at least one row checked and the prompt confirmed (Confirm on
the dialog, or OK on the native prompt when SweetAlert is missing), the per-table delete
handler of `global-checkbox.js` sends, provided `getCSRFToken` returns, exactly one POST
to the button's `data-delete-url` whose body has `ids` equal to `parseInt` of the value of
each checked row, in the rows' order, and `type` equal to `soft`. The delete handler of
`initTableActions` sends, under the same conditions, exactly one POST whose `ids` are the
value strings of the checked rows in the rows' order and whose `type` is the button's
`data-type`, or `hard` when that is missing or empty; the top-level handler of
`#deletePermanentlyBtn` sends the value strings with type `hard`. -/
theorem confirmed_delete_request (s : Scope) (btn : Ref) (p : Page) (user : User)
    (hsel : ∃ cb ∈ s.checkboxes, p.checked cb = true)
    (hconf : (p.swalDefined = true ∧ user.swal = .confirmed) ∨
      (p.swalDefined = false ∧ user.confirm = true)) :
    (∀ token, GlobalCheckbox.getCSRFToken p.cookie = .ok token →
      requests (GlobalCheckbox.deleteClick s btn p user) =
        [{ url := p.deleteUrl btn, method := "POST", contentType := "application/json",
           csrfToken := token,
           body := { ids := (s.checkboxes.filter (fun cb => p.checked cb)).map
                       (fun cb => JsValue.number (parseInt (p.value cb))),
                     type := some "soft" } }]) ∧
    (∀ token, TableActions.getCSRFToken p.cookie = .ok token →
      requests (TableActions.deleteClick s btn p user) =
        [{ url := p.deleteUrl btn, method := "POST", contentType := "application/json",
           csrfToken := token,
           body := { ids := (s.checkboxes.filter (fun cb => p.checked cb)).map
                       (fun cb => JsValue.string (p.value cb)),
                     type := some (orDefault (p.dataType btn) "hard") } }]) ∧
    requests (GlobalCheckboxPage.deleteClick s btn p user) =
      [{ url := p.deleteUrl btn, method := "POST", contentType := "application/json",
         csrfToken := some "\x7b\x7b csrf_token \x7d\x7d",
         body := { ids := (s.checkboxes.filter (fun cb => p.checked cb)).map
                     (fun cb => JsValue.string (p.value cb)),
                   type := some "hard" } }] := by
  have hlen := length_pos_of_selection s.checkboxes p hsel
  have h1 : ¬ (GlobalCheckbox.selectedIds s p).length = 0 := by
    rw [table_ids_length]; exact hlen
  have h2 : ¬ (GlobalCheckboxPage.selectedIds s p).length = 0 := by
    rw [page_ids_length]; exact hlen
  have h3 : ¬ (TableActions.selectedIds s p).length = 0 := by
    rw [actions_ids_length]; exact hlen
  refine ⟨fun token htok => ?_, fun token htok => ?_, ?_⟩
  · have hids : (s.checkboxes.filter (fun cb => p.checked cb)).map
          (fun cb => JsValue.number (parseInt (p.value cb))) = GlobalCheckbox.selectedIds s p :=
      rfl
    rw [hids]
    rcases hconf with ⟨hs, hu⟩ | ⟨hs, hu⟩ <;>
      simp [GlobalCheckbox.deleteClick, h1, hs, hu, GlobalCheckbox.sendDeleteRequest, htok,
        requests]
  · have hids : (s.checkboxes.filter (fun cb => p.checked cb)).map
          (fun cb => JsValue.string (p.value cb)) = TableActions.selectedIds s p := rfl
    rw [hids]
    rcases hconf with ⟨hs, hu⟩ | ⟨hs, hu⟩ <;>
      simp [TableActions.deleteClick, h3, hs, hu, TableActions.sendDelete, htok, requests]
  · have hids : (s.checkboxes.filter (fun cb => p.checked cb)).map
          (fun cb => JsValue.string (p.value cb)) = GlobalCheckboxPage.selectedIds s p := rfl
    rw [hids]
    rcases hconf with ⟨hs, hu⟩ | ⟨hs, hu⟩ <;>
      simp [GlobalCheckboxPage.deleteClick, h2, hs, hu, GlobalCheckboxPage.sendDeleteRequest,
        requests]

/-- Claim C8, amended, at the example of the specification: with rows 4, 7 and 9 checked
and the dialog confirmed, the per-table handler posts to `/payslips/delete` the body
`\x7b"ids":[4,7,9],"type":"soft"\x7d`. -/
theorem confirmed_delete_request_witness :
    (∃ cb ∈ tableScope.checkboxes, examplePage.checked cb = true) ∧
    (requests (GlobalCheckbox.deleteClick tableScope 20 examplePage
        { swal := .confirmed, confirm := false })).map
        (fun r => (r.url, r.method, r.body.stringify))
      = [(some "/payslips/delete", "POST", "\x7b\"ids\":[4,7,9],\"type\":\"soft\"\x7d")] :=
  ⟨⟨11, by decide, rfl⟩, by
    rw [(confirmed_delete_request tableScope 20 examplePage
      { swal := .confirmed, confirm := false } ⟨11, by decide, rfl⟩
      (Or.inl ⟨rfl, rfl⟩)).1 (some "abc123") rfl]
    rfl⟩

/-! ## Claims on the anti-forgery token -/

theorem actions_loop_eq (entries : List (List Char)) :
    TableActions.getCSRFTokenLoop none entries =
      match (entries.map jsTrim).filter (fun e => jsStartsWith e "csrftoken=") with
      | [] => .ok none
      | e :: _ =>
        match decodeURIComponent (e.drop 10) with
        | .ok v => .ok (some v)
        | .error err => .error err := by
  induction entries with
  | nil => rfl
  | cons c rest ih =>
    by_cases h : jsStartsWith (jsTrim c) "csrftoken=" = true
    · have hlen : "csrftoken=".length = 10 := rfl
      simp [TableActions.getCSRFTokenLoop, h, hlen]
    · simp only [TableActions.getCSRFTokenLoop, h, List.map_cons, List.filter_cons]
      simpa using ih

theorem table_loop_eq_actions (cookieValue : Option String) (entries : List (List Char)) :
    GlobalCheckbox.getCSRFTokenLoop cookieValue entries
      = TableActions.getCSRFTokenLoop cookieValue entries := by
  induction entries with
  | nil => rfl
  | cons c rest ih =>
    simp only [GlobalCheckbox.getCSRFTokenLoop, TableActions.getCSRFTokenLoop, ih]

theorem actions_token_eq (documentCookie : String) :
    TableActions.getCSRFToken documentCookie =
      match csrfEntries documentCookie with
      | [] => .ok none
      | e :: _ =>
        match decodeURIComponent (e.drop 10) with
        | .ok v => .ok (some v)
        | .error err => .error err := by
  by_cases h : documentCookie = ""
  · subst h
    rfl
  · simp only [TableActions.getCSRFToken, csrfEntries, h, ne_eq, not_false_eq_true, if_true]
    exact actions_loop_eq _

/-- Claim C7, as stated, fails: on the cookie string `csrftoken=%` the entry is named
`csrftoken`, but `decodeURIComponent` throws URIError on the text after `=`, and
`getCSRFToken` returns neither null nor a decoded text. -/
theorem token_malformed_escape_throws :
    csrfEntries "csrftoken=%" = ["csrftoken=%".data] ∧
    TableActions.getCSRFToken "csrftoken=%" = .error .uriError ∧
    GlobalCheckbox.getCSRFToken "csrftoken=%" = .error .uriError := by
  refine ⟨?_, ?_, ?_⟩ <;> rfl

/-- Claim C7, amended: for every cookie string, `getCSRFToken` returns null when no
`;`-separated entry, trimmed of surrounding white space, begins with `csrftoken=`;
otherwise it passes the text after `csrftoken=` of the first such entry to
`decodeURIComponent` and returns the decoded text when that succeeds, and raises the
URIError of `decodeURIComponent` when the text is not valid percent-encoding. The two
definitions of `getCSRFToken` agree on every cookie string. -/
theorem token_of_cookie (documentCookie : String) :
    (csrfEntries documentCookie = [] → TableActions.getCSRFToken documentCookie = .ok none) ∧
    (∀ e rest text, csrfEntries documentCookie = e :: rest →
      decodeURIComponent (e.drop "csrftoken=".length) = .ok text →
      TableActions.getCSRFToken documentCookie = .ok (some text)) ∧
    (∀ e rest err, csrfEntries documentCookie = e :: rest →
      decodeURIComponent (e.drop "csrftoken=".length) = .error err →
      TableActions.getCSRFToken documentCookie = .error err) ∧
    GlobalCheckbox.getCSRFToken documentCookie = TableActions.getCSRFToken documentCookie := by
  have hlen : "csrftoken=".length = 10 := rfl
  refine ⟨fun h => ?_, fun e rest text h hd => ?_, fun e rest err h hd => ?_, ?_⟩
  · rw [actions_token_eq, h]
  · rw [hlen] at hd
    rw [actions_token_eq, h]
    simp only [hd]
  · rw [hlen] at hd
    rw [actions_token_eq, h]
    simp only [hd]
  · simp only [GlobalCheckbox.getCSRFToken, TableActions.getCSRFToken, table_loop_eq_actions]

/-- Claim C7, amended, at a cookie string with two `csrftoken` entries: the first one is
read and decoded. -/
theorem token_of_cookie_witness :
    csrfEntries "a=1;  csrftoken=a%20b ; csrftoken=zz"
      = ["csrftoken=a%20b".data, "csrftoken=zz".data] ∧
    TableActions.getCSRFToken "a=1;  csrftoken=a%20b ; csrftoken=zz" = .ok (some "a b") :=
  ⟨rfl, (token_of_cookie "a=1;  csrftoken=a%20b ; csrftoken=zz").2.1
    "csrftoken=a%20b".data ["csrftoken=zz".data] "a b" rfl rfl⟩

/-! ## Claims on initialization -/

/-- Claim C6, as stated, fails: on markup whose table, master checkbox and rows exist but
whose delete button is not found by its selector, `initTableActions` raises no error and
yet registers behaviour for the scope, the change handlers of the master checkbox and of
the five rows; and on the same markup with a master selector that matches nothing and the
invalid delete-button selector `[`, the lookup of line 31 raises SyntaxError although the
master checkbox is missing. -/
theorem missing_button_still_registers :
    TableActions.buttonLookup noButtonDoc exampleOptions.deleteBtnSelector = .ok none ∧
    (TableActions.initTableActions noButtonDoc (some exampleOptions)).error = none ∧
    (TableActions.initTableActions noButtonDoc (some exampleOptions)).listeners.map
        (fun l => (l.target, l.event, l.handler))
      = [(1, "change", .actionsMarkAllChange), (11, "change", .actionsRowChange),
         (12, "change", .actionsRowChange), (13, "change", .actionsRowChange),
         (14, "change", .actionsRowChange), (15, "change", .actionsRowChange)] ∧
    noButtonDoc.query (some 100) "input.no-such-master" = .ok none ∧
    TableActions.initTableActions noButtonDoc (some brokenOptions)
      = { listeners := [], error := some .syntaxError } := by
  refine ⟨?_, ?_, ?_, ?_, ?_⟩ <;> rfl

/-- The unguarded `deleteBtn.addEventListener` of `global-checkbox.js` (line 41): on the
same markup, which has no `#deleteSelectedBtn`, the `DOMContentLoaded` callback ends with
a TypeError after it has registered the six change handlers. -/
theorem missing_delete_button_throws :
    (GlobalCheckbox.domContentLoaded noButtonDoc).error = some .typeError ∧
    (GlobalCheckbox.domContentLoaded noButtonDoc).listeners.length = 6 := by
  constructor <;> rfl

theorem registerHandlers_master (s : Scope) :
    ({ target := s.markAll, event := "change", handler := .actionsMarkAllChange, scope := s }
      : Listener) ∈ TableActions.registerHandlers s := by
  simp [TableActions.registerHandlers]

theorem registerHandlers_row (s : Scope) (cb : Ref) (h : cb ∈ s.checkboxes) :
    ({ target := cb, event := "change", handler := .actionsRowChange, scope := s }
      : Listener) ∈ TableActions.registerHandlers s := by
  simp only [TableActions.registerHandlers, List.mem_append, List.mem_map]
  exact Or.inl (Or.inl (Or.inr ⟨cb, h, rfl⟩))

theorem registerHandlers_click (s : Scope) (l : Listener)
    (hl : l ∈ TableActions.registerHandlers s) (hc : l.event = "click") :
    (l.handler = .actionsRestoreClick ∧ s.restoreBtn = some l.target) ∨
    (l.handler = .actionsDeleteClick ∧ s.deleteBtn = some l.target) := by
  simp only [TableActions.registerHandlers, List.mem_append, List.mem_singleton,
    List.mem_map] at hl
  rcases hl with ((hl | ⟨cb, _, hl⟩) | hl) | hl
  · rw [hl] at hc
    simp at hc
  · rw [← hl] at hc
    simp at hc
  · cases hr : s.restoreBtn with
    | none => simp [hr] at hl
    | some b =>
      simp only [hr, List.mem_singleton] at hl
      rw [hl]
      exact Or.inl ⟨rfl, rfl⟩
  · cases hd : s.deleteBtn with
    | none => simp [hd] at hl
    | some b =>
      simp only [hd, List.mem_singleton] at hl
      rw [hl]
      exact Or.inr ⟨rfl, rfl⟩

theorem registerHandlers_handler (s : Scope) (l : Listener)
    (hl : l ∈ TableActions.registerHandlers s) :
    (l.handler = .actionsRestoreClick → s.restoreBtn = some l.target) ∧
    (l.handler = .actionsDeleteClick → s.deleteBtn = some l.target) := by
  simp only [TableActions.registerHandlers, List.mem_append, List.mem_singleton,
    List.mem_map] at hl
  rcases hl with ((hl | ⟨cb, _, hl⟩) | hl) | hl
  · rw [hl]
    exact ⟨fun h => by simp at h, fun h => by simp at h⟩
  · rw [← hl]
    exact ⟨fun h => by simp at h, fun h => by simp at h⟩
  · cases hr : s.restoreBtn with
    | none => simp [hr] at hl
    | some b =>
      simp only [hr, List.mem_singleton] at hl
      rw [hl]
      exact ⟨fun _ => rfl, fun h => by simp at h⟩
  · cases hd : s.deleteBtn with
    | none => simp [hd] at hl
    | some b =>
      simp only [hd, List.mem_singleton] at hl
      rw [hl]
      exact ⟨fun h => by simp at h, fun _ => rfl⟩

theorem initTableActions_found (doc : Document) (o : TableActions.Options)
    (table m : Ref) (rows : List Ref) (rb db : Option Ref)
    (ht : doc.query none (o.tableSelector.getD "undefined") = .ok (some table))
    (hm : doc.query (some table) (orDefault o.markAllSelector "input.mark-all")
      = .ok (some m))
    (hrows : doc.queryAll (some table) (orDefault o.rowCheckboxSelector "input.row-checkbox")
      = .ok rows)
    (hne : rows ≠ [])
    (hrb : TableActions.buttonLookup doc o.restoreBtnSelector = .ok rb)
    (hdb : TableActions.buttonLookup doc o.deleteBtnSelector = .ok db) :
    TableActions.initTableActions doc (some o) =
      { listeners := TableActions.registerHandlers
          { markAll := m, checkboxes := rows, restoreBtn := rb, deleteBtn := db },
        error := none } := by
  have hlen : ¬ rows.length = 0 := fun h => hne (List.length_eq_zero.mp h)
  simp [TableActions.initTableActions, ht, hm, hrows, hrb, hdb, hlen]

/-- Claim C6, amended: `initTableActions`, called with an options object, registers nothing
and raises nothing when its table is not found (the table selector being valid), and
likewise when the table is found and the master checkbox is missing or there is no row
checkbox, provided the selectors it looks up are valid; a lookup with an invalid selector
raises SyntaxError and a call without options raises TypeError. When the table, the master
and at least one row are found and the button lookups return, it raises nothing and
registers exactly the change handler of the master, the change handler of every row and a
click handler for each button that was found: a button that is not found gets no click
handler, while the change handlers are still registered. In `global-checkbox.js` the
per-table initialization registers nothing and raises nothing when the table of a master
checkbox has no row checkbox, and the `DOMContentLoaded` callback does nothing when no
master checkbox is found. -/
theorem init_with_missing_elements (doc : Document) (o : TableActions.Options) (markAll : Ref) :
    TableActions.initTableActions doc none = { listeners := [], error := some .typeError } ∧
    (doc.query none (o.tableSelector.getD "undefined") = .ok none →
      TableActions.initTableActions doc (some o) = { listeners := [], error := none }) ∧
    (∀ table master rows rb db,
      doc.query none (o.tableSelector.getD "undefined") = .ok (some table) →
      doc.query (some table) (orDefault o.markAllSelector "input.mark-all") = .ok master →
      doc.queryAll (some table) (orDefault o.rowCheckboxSelector "input.row-checkbox")
        = .ok rows →
      TableActions.buttonLookup doc o.restoreBtnSelector = .ok rb →
      TableActions.buttonLookup doc o.deleteBtnSelector = .ok db →
      master = none ∨ rows = [] →
      TableActions.initTableActions doc (some o) = { listeners := [], error := none }) ∧
    (∀ table m rows rb db,
      doc.query none (o.tableSelector.getD "undefined") = .ok (some table) →
      doc.query (some table) (orDefault o.markAllSelector "input.mark-all") = .ok (some m) →
      doc.queryAll (some table) (orDefault o.rowCheckboxSelector "input.row-checkbox")
        = .ok rows →
      rows ≠ [] →
      TableActions.buttonLookup doc o.restoreBtnSelector = .ok rb →
      TableActions.buttonLookup doc o.deleteBtnSelector = .ok db →
      (TableActions.initTableActions doc (some o)).error = none ∧
      (∃ s : Scope, s.markAll = m ∧ s.checkboxes = rows ∧ s.restoreBtn = rb ∧
        s.deleteBtn = db ∧
        ({ target := m, event := "change", handler := .actionsMarkAllChange, scope := s }
          : Listener) ∈ (TableActions.initTableActions doc (some o)).listeners ∧
        (∀ cb ∈ rows,
          ({ target := cb, event := "change", handler := .actionsRowChange, scope := s }
            : Listener) ∈ (TableActions.initTableActions doc (some o)).listeners)) ∧
      (∀ l ∈ (TableActions.initTableActions doc (some o)).listeners,
        (l.handler = .actionsRestoreClick → rb = some l.target) ∧
        (l.handler = .actionsDeleteClick → db = some l.target) ∧
        (l.event = "click" →
          l.handler = .actionsRestoreClick ∨ l.handler = .actionsDeleteClick)) ∧
      (rb = none → db = none →
        (TableActions.initTableActions doc (some o)).listeners.map
            (fun l => (l.target, l.event, l.handler))
          = (m, "change", Handler.actionsMarkAllChange) ::
              rows.map (fun cb => (cb, "change", Handler.actionsRowChange)))) ∧
    (doc.querySelectorAll (doc.closest markAll "table") ".row-checkbox" = [] →
      GlobalCheckbox.initTable doc markAll = { listeners := [], error := none }) ∧
    (doc.querySelectorAll none "[id^='markAll']" = [] →
      GlobalCheckbox.domContentLoaded doc = { listeners := [], error := none }) := by
  refine ⟨rfl, ?_, ?_, ?_, ?_, ?_⟩
  · intro h
    simp [TableActions.initTableActions, h]
  · intro table master rows rb db ht hm hrows hrb hdb h
    rcases h with h | h
    · subst h
      simp [TableActions.initTableActions, ht, hm, hrows, hrb, hdb]
    · subst h
      cases master <;> simp [TableActions.initTableActions, ht, hm, hrows, hrb, hdb]
  · intro table m rows rb db ht hm hrows hne hrb hdb
    rw [initTableActions_found doc o table m rows rb db ht hm hrows hne hrb hdb]
    refine ⟨rfl, ⟨_, rfl, rfl, rfl, rfl, registerHandlers_master _, ?_⟩, ?_, ?_⟩
    · intro cb hcb
      exact registerHandlers_row _ cb hcb
    · intro l hl
      refine ⟨(registerHandlers_handler _ l hl).1, (registerHandlers_handler _ l hl).2, ?_⟩
      intro hc
      rcases registerHandlers_click _ l hl hc with h | h
      · exact Or.inl h.1
      · exact Or.inr h.1
    · intro h1 h2
      subst h1
      subst h2
      simp [TableActions.registerHandlers, Function.comp_def]
  · intro h
    simp [GlobalCheckbox.initTable, h]
  · intro h
    simp [GlobalCheckbox.domContentLoaded, h, GlobalCheckbox.initTables]

/-- Claim C6, amended, at the markup without buttons: with a table selector that matches
nothing, and with a master selector that matches nothing, nothing is registered and
nothing is raised; with the documented options the delete button is not found, no error
is raised, the change handlers of the master checkbox and of the five rows are registered
and no click handler is. -/
theorem init_with_missing_elements_witness :
    noButtonDoc.query none "#none" = .ok none ∧
    TableActions.initTableActions noButtonDoc
        (some { exampleOptions with tableSelector := some "#none" })
      = { listeners := [], error := none } ∧
    noButtonDoc.query (some 100) "input.no-such-master" = .ok none ∧
    TableActions.initTableActions noButtonDoc
        (some { brokenOptions with deleteBtnSelector := none })
      = { listeners := [], error := none } ∧
    TableActions.buttonLookup noButtonDoc exampleOptions.deleteBtnSelector = .ok none ∧
    (TableActions.initTableActions noButtonDoc (some exampleOptions)).error = none ∧
    (TableActions.initTableActions noButtonDoc (some exampleOptions)).listeners.map
        (fun l => (l.target, l.event, l.handler))
      = [(1, "change", .actionsMarkAllChange), (11, "change", .actionsRowChange),
         (12, "change", .actionsRowChange), (13, "change", .actionsRowChange),
         (14, "change", .actionsRowChange), (15, "change", .actionsRowChange)] :=
  ⟨rfl,
    (init_with_missing_elements noButtonDoc
      { exampleOptions with tableSelector := some "#none" } 1).2.1 rfl,
    rfl,
    (init_with_missing_elements noButtonDoc
      { brokenOptions with deleteBtnSelector := none } 1).2.2.1
      100 none [11, 12, 13, 14, 15] none none rfl rfl rfl rfl rfl (Or.inl rfl),
    rfl,
    ((init_with_missing_elements noButtonDoc exampleOptions 1).2.2.2.1
      100 1 [11, 12, 13, 14, 15] none none rfl rfl rfl (by decide) rfl rfl).1,
    ((init_with_missing_elements noButtonDoc exampleOptions 1).2.2.2.1
      100 1 [11, 12, 13, 14, 15] none none rfl rfl rfl (by decide) rfl rfl).2.2.2 rfl rfl⟩

/-! ## Several scopes on one page -/

/-- What a change handler leaves alone: the checked state of every checkbox outside its
scope and the display of every element that is not one of its buttons. -/
theorem change_handlers_frame (s : Scope) (p : Page) (el : Ref) :
    (el ∉ s.checkboxes →
      (GlobalCheckbox.markAllChange s p).checked el = p.checked el ∧
      (GlobalCheckbox.rowChange s p).checked el = p.checked el ∧
      (TableActions.markAllChange s p).checked el = p.checked el ∧
      (TableActions.rowChange s p).checked el = p.checked el) ∧
    (s.restoreBtn ≠ some el → s.deleteBtn ≠ some el →
      (TableActions.markAllChange s p).display el = p.display el ∧
      (TableActions.rowChange s p).display el = p.display el) := by
  constructor
  · intro h
    simp only [GlobalCheckbox.markAllChange, GlobalCheckbox.rowChange,
      TableActions.markAllChange, TableActions.rowChange, table_toggle_checked,
      actions_toggle_checked, setAll_checked_not_mem _ _ _ _ h, and_self]
  · intro hr hd
    have key : ∀ q : Page, (TableActions.toggleButtons s q).display el = q.display el := by
      intro q
      unfold TableActions.toggleButtons
      cases hr2 : s.restoreBtn with
      | none =>
        cases hd2 : s.deleteBtn with
        | none => rfl
        | some d =>
          have : el ≠ d := fun e => hd (by rw [hd2, e])
          simp [Page.setDisplay, Function.update_apply, this]
      | some r =>
        have h1 : el ≠ r := fun e => hr (by rw [hr2, e])
        cases hd2 : s.deleteBtn with
        | none => simp [Page.setDisplay, Function.update_apply, h1]
        | some d =>
          have h2 : el ≠ d := fun e => hd (by rw [hd2, e])
          simp [Page.setDisplay, Function.update_apply, h1, h2]
    simp only [TableActions.markAllChange, TableActions.rowChange, key, setAll_display,
      and_self]

/-- Claim C9 is broken by `global-checkbox.js`: on a page with two tables that follow its
naming convention, every scope captures the one `#deleteSelectedBtn`. After the user has
checked a row of the second table the button is shown; checking and unchecking a row of
the first table then hides it, while the row of the second table is still checked, so the
button's visibility no longer equals the OR of the rows of the second scope. -/
theorem shared_delete_button_goes_stale :
    (twoTableListeners.filter (fun l => l.target = 30)).map (fun l => l.scope.checkboxes)
      = [[11, 12], [21, 22]] ∧
    afterCheckingSecond.display 30 = "inline-block" ∧
    afterTogglingFirst.checked 11 = false ∧
    afterTogglingFirst.checked 12 = false ∧
    afterTogglingFirst.checked 21 = true ∧
    afterTogglingFirst.display 30 = "none" := by
  refine ⟨?_, ?_, ?_, ?_, ?_, ?_⟩ <;> rfl

/-! ## Witnesses -/

/-- Claim C4 at the example page: with nothing checked the master handler of the
per-table code leaves `#deleteSelectedBtn` hidden; with rows checked the row handler of
`initTableActions` leaves the restore button shown. -/
theorem buttons_track_selection_witness :
    (tableScope.deleteBtn = some 20 ∧
      VisibleIffAnyChecked tableScope.checkboxes 20
        (GlobalCheckbox.markAllChange tableScope emptyPage) ∧
      (GlobalCheckbox.markAllChange tableScope emptyPage).display 20 = "none") ∧
    (trashScope.restoreBtn = some 21 ∧
      VisibleIffAnyChecked trashScope.checkboxes 21
        (TableActions.rowChange trashScope examplePage) ∧
      (TableActions.rowChange trashScope examplePage).display 21 = "inline-block") :=
  ⟨⟨rfl, ((buttons_track_selection tableScope emptyPage 20).1 rfl).1, rfl⟩,
    rfl, ((buttons_track_selection trashScope examplePage 21).2 (Or.inl rfl)).2, rfl⟩

/-- Claim C5 at the example page: row `11` is checked and the master is unchecked; after
the master handler row `11` has the master's state. -/
theorem master_change_sets_every_row_witness :
    11 ∈ tableScope.checkboxes ∧ examplePage.checked 11 = true ∧
    examplePage.checked tableScope.markAll = false ∧
    (GlobalCheckbox.markAllChange tableScope examplePage).checked 11 = false ∧
    (TableActions.markAllChange tableScope examplePage).checked 11 = false :=
  ⟨by decide, rfl, rfl,
    (master_change_sets_every_row tableScope examplePage 11 (by decide)).1.1,
    (master_change_sets_every_row tableScope examplePage 11 (by decide)).2.2.1⟩

/-- Claim C1 at the page with no row checked: the per-table delete handler does nothing. -/
theorem no_selection_no_request_witness :
    (∀ cb ∈ tableScope.checkboxes, emptyPage.checked cb = false) ∧
    GlobalCheckbox.deleteClick tableScope 20 emptyPage { swal := .confirmed, confirm := true }
      = [] :=
  ⟨fun _ _ => rfl,
    ((no_selection_no_request tableScope 20 emptyPage
      { swal := .confirmed, confirm := true }).1 (fun _ _ => rfl)).1⟩

end SaasHrm
